import Mathlib

/-!
Shallow embedding of `src/alphahuman_langgraph/tools.py`.

The module wraps a remote memory API client into three LangChain tool
callables: `alphahuman_ingest_memory`, `alphahuman_read_memory` and
`alphahuman_delete_memory`, produced by the factory `make_memory_tools`
and by the environment-reading convenience accessor `get_tools`.

Modelling choices:
* Python dictionaries with string keys become association lists
  (`Dict := List (String × PyValue)`); `item["k"]` becomes `getitem`,
  which returns `Except` and fails with `PyErr.keyError` exactly where
  Python raises `KeyError`; `item.get(k, default)` becomes `dictGetD`.
* The external client library (`alphahuman_memory`) is represented by its
  request/response record types and by a `Network` record of pure
  functions standing for the remote API's behaviour.  A configured
  client instance is its `AlphahumanConfig`.
* Each tool function additionally returns the list of requests it sent
  to the client, so "no network call was made" is the statement that
  this list is empty.
-/

namespace AlphahumanLanggraph

/-- A Python value, as far as this module inspects or produces them. -/
inductive PyValue where
  | str (s : String)
  | int (n : Int)
  | list (xs : List PyValue)
  | dict (entries : List (String × PyValue))
deriving Repr

/-- A Python `dict[str, Any]`: an association list of string keys. -/
abbrev Dict := List (String × PyValue)

/-- The Python exceptions raised by this module. -/
inductive PyErr where
  | keyError (k : String)
  | valueError (msg : String)
deriving Repr, DecidableEq

/-- `d.get(k)` — `None` when the key is absent. -/
def dictGet? (d : Dict) (k : String) : Option PyValue :=
  d.lookup k

/-- `d[k]` — raises `KeyError(k)` when the key is absent. -/
def getitem (d : Dict) (k : String) : Except PyErr PyValue :=
  match dictGet? d k with
  | some v => .ok v
  | none => .error (.keyError k)

/-- `d.get(k, default)`. -/
def dictGetD (d : Dict) (k : String) (default : PyValue) : PyValue :=
  (dictGet? d k).getD default

/-- `alphahuman_memory.MemoryItem` as constructed by the ingest tool. -/
structure MemoryItem where
  key : PyValue
  content : PyValue
  «namespace» : PyValue
  metadata : PyValue
deriving Repr

/-- `alphahuman_memory.IngestMemoryRequest`. -/
structure IngestMemoryRequest where
  items : List MemoryItem
deriving Repr

/-- The client's response to an ingest request. -/
structure IngestResult where
  ingested : Int
  updated : Int
  errors : Int
deriving Repr, DecidableEq

/-- `alphahuman_memory.ReadMemoryRequest`. -/
structure ReadMemoryRequest where
  key : Option String
  keys : Option (List String)
  «namespace» : Option String
deriving Repr, DecidableEq

/-- A stored memory item as returned by the client's read operation. -/
structure StoredMemoryItem where
  key : PyValue
  content : PyValue
  «namespace» : PyValue
  metadata : PyValue
  created_at : PyValue
  updated_at : PyValue
deriving Repr

/-- The client's response to a read request. -/
structure ReadResult where
  items : List StoredMemoryItem
  count : Int
deriving Repr

/-- `alphahuman_memory.DeleteMemoryRequest`. -/
structure DeleteMemoryRequest where
  key : Option String
  keys : Option (List String)
  «namespace» : Option String
  delete_all : Bool
deriving Repr, DecidableEq

/-- The client's response to a delete request. -/
structure DeleteResult where
  deleted : Int
deriving Repr, DecidableEq

/-- `alphahuman_memory.AlphahumanConfig`: the credentials captured by the
client at construction time.  A configured `AlphahumanMemoryClient` is
identified with its config. -/
structure AlphahumanConfig where
  token : String
  base_url : String
deriving Repr, DecidableEq

/-- The remote API's behaviour: what the underlying client would return
for each request, given the credentials it was configured with.  The
module under verification never inspects this; it only forwards. -/
structure Network where
  ingest : AlphahumanConfig → IngestMemoryRequest → IngestResult
  read : AlphahumanConfig → ReadMemoryRequest → ReadResult
  delete : AlphahumanConfig → DeleteMemoryRequest → DeleteResult

/-- The environment variable holding the API key (`_TOKEN_ENV`). -/
def _TOKEN_ENV : String := "ALPHAHUMAN_API_KEY"

/-- The environment variable holding the base URL (`_BASE_URL_ENV`). -/
def _BASE_URL_ENV : String := "ALPHAHUMAN_BASE_URL"

/-- Modelled from the spec: `DEFAULT_BASE_URL` is imported from the
external `alphahuman_memory.types` module ("a documented default",
a staging URL); its concrete value lives outside this repository and
only its identity matters here. -/
def DEFAULT_BASE_URL : String := "https://staging.alphahuman.example/api"

/-- A process environment (`os.environ`): string-to-string map. -/
abbrev Env := List (String × String)

/-- `os.environ.get(k)`. -/
def envGet? (env : Env) (k : String) : Option String :=
  env.lookup k

/-- The body of one iteration of the list comprehension in
`alphahuman_ingest_memory`:
`MemoryItem(key=item["key"], content=item["content"],
namespace=item.get("namespace", "default"),
metadata=item.get("metadata", {}))`.
Keyword arguments are evaluated left to right, so a missing `"key"`
raises before `"content"` is looked up. -/
def buildMemoryItem (item : Dict) : Except PyErr MemoryItem :=
  match getitem item "key" with
  | .error e => .error e
  | .ok k =>
      match getitem item "content" with
      | .error e => .error e
      | .ok c =>
          .ok { key := k, content := c,
                «namespace» := dictGetD item "namespace" (.str "default"),
                metadata := dictGetD item "metadata" (.dict []) }

/-- The whole list comprehension: items are translated in order and the
first `KeyError` aborts the comprehension. -/
def buildMemoryItems : List Dict → Except PyErr (List MemoryItem)
  | [] => .ok []
  | d :: ds =>
      match buildMemoryItem d with
      | .error e => .error e
      | .ok m =>
          match buildMemoryItems ds with
          | .error e => .error e
          | .ok ms => .ok (m :: ms)

/-- The `MemoryItem` built from a dict that has both required fields
(the `getD` defaults for `key`/`content` are never reached then). -/
def itemOfDict (d : Dict) : MemoryItem :=
  { key := (dictGet? d "key").getD (.str ""),
    content := (dictGet? d "content").getD (.str ""),
    «namespace» := dictGetD d "namespace" (.str "default"),
    metadata := dictGetD d "metadata" (.dict []) }

/-- The tool `alphahuman_ingest_memory`, closed over `client` (the
config of the single client instance built by the factory).  `net` is
the ambient remote API.  The second component is the list of requests
actually sent to the client. -/
def alphahuman_ingest_memory (client : AlphahumanConfig) (net : Network)
    (items : List Dict) : Except PyErr Dict × List IngestMemoryRequest :=
  match buildMemoryItems items with
  | .error e => (.error e, [])
  | .ok memory_items =>
      let req : IngestMemoryRequest := { items := memory_items }
      let result := net.ingest client req
      (.ok [("ingested", .int result.ingested),
            ("updated", .int result.updated),
            ("errors", .int result.errors)], [req])

/-- The dict built from one stored item by `alphahuman_read_memory`. -/
def storedItemToDict (item : StoredMemoryItem) : Dict :=
  [("key", item.key), ("content", item.content),
   ("namespace", item.«namespace»), ("metadata", item.metadata),
   ("created_at", item.created_at), ("updated_at", item.updated_at)]

/-- The tool `alphahuman_read_memory`. -/
def alphahuman_read_memory (client : AlphahumanConfig) (net : Network)
    (key : Option String) (keys : Option (List String))
    (ns : Option String) : Dict × List ReadMemoryRequest :=
  let req : ReadMemoryRequest := { key := key, keys := keys, «namespace» := ns }
  let result := net.read client req
  ([("items", .list (result.items.map (fun item => .dict (storedItemToDict item)))),
    ("count", .int result.count)], [req])

/-- The tool `alphahuman_delete_memory`; returns `dict[str, int]`. -/
def alphahuman_delete_memory (client : AlphahumanConfig) (net : Network)
    (key : Option String) (keys : Option (List String))
    (ns : Option String) (delete_all : Bool) :
    List (String × Int) × List DeleteMemoryRequest :=
  let req : DeleteMemoryRequest :=
    { key := key, keys := keys, «namespace» := ns, delete_all := delete_all }
  let result := net.delete client req
  ([("deleted", result.deleted)], [req])

/-- Python's `a or b or DEFAULT_BASE_URL` over `Optional[str]` values:
an empty or absent string falls through to the next alternative.  This
is `base_url or os.environ.get(_BASE_URL_ENV) or DEFAULT_BASE_URL` in
`make_memory_tools`. -/
def resolved_base_url (env : Env) (base_url : Option String) : String :=
  match base_url with
  | some s =>
      if s = "" then
        match envGet? env _BASE_URL_ENV with
        | some t => if t = "" then DEFAULT_BASE_URL else t
        | none => DEFAULT_BASE_URL
      else s
  | none =>
      match envGet? env _BASE_URL_ENV with
      | some t => if t = "" then DEFAULT_BASE_URL else t
      | none => DEFAULT_BASE_URL

/-- The value returned by `make_memory_tools`: the single configured
client instance the three tools close over, together with each tool's
declared parameter list (the parameter names of the three `def`s in the
source, which is the schema the LLM framework derives and the only
interface exposed to the LLM). -/
structure MemoryToolSet where
  client : AlphahumanConfig
  ingest_tool_params : List String
  read_tool_params : List String
  delete_tool_params : List String
deriving Repr, DecidableEq

/-- `make_memory_tools(token, base_url=None)`: builds one client from
the resolved base URL and the token, and returns the three tools closed
over it.  The tools' parameter lists transcribe the signatures
`alphahuman_ingest_memory(items)`,
`alphahuman_read_memory(key=None, keys=None, namespace=None)`,
`alphahuman_delete_memory(key=None, keys=None, namespace=None,
delete_all=False)`. -/
def make_memory_tools (env : Env) (token : String)
    (base_url : Option String := none) : MemoryToolSet :=
  { client := { token := token, base_url := resolved_base_url env base_url },
    ingest_tool_params := ["items"],
    read_tool_params := ["key", "keys", "namespace"],
    delete_tool_params := ["key", "keys", "namespace", "delete_all"] }

/-- The error message of `get_tools` when the API key is missing. -/
def get_tools_err_msg : String :=
  "Set the " ++ _TOKEN_ENV ++ " environment variable or use make_memory_tools(token=...)"

/-- The `base_url` computed inside `get_tools`:
`os.environ.get(_BASE_URL_ENV) or None` (the empty string is falsy and
becomes `None`). -/
def get_tools_base_url (env : Env) : Option String :=
  match envGet? env _BASE_URL_ENV with
  | some s => if s = "" then none else some s
  | none => none

/-- `get_tools()`: reads `ALPHAHUMAN_API_KEY` (with `""` as the default
for an unset variable, and `if not token` rejecting the falsy empty
string) and `ALPHAHUMAN_BASE_URL` (`or None` turns the empty string
into `None`), then delegates to `make_memory_tools`. -/
def get_tools (env : Env) : Except PyErr MemoryToolSet :=
  let token := (envGet? env _TOKEN_ENV).getD ""
  if token = "" then
    .error (.valueError get_tools_err_msg)
  else
    .ok (make_memory_tools env token (get_tools_base_url env))

/-! ### Helper lemmas -/

/-- A trivial remote API, used to instantiate theorems at concrete inputs. -/
def netZero : Network :=
  { ingest := fun _ _ => { ingested := 0, updated := 0, errors := 0 },
    read := fun _ _ => { items := [], count := 0 },
    delete := fun _ _ => { deleted := 0 } }

theorem buildMemoryItem_key_none (d : Dict) (h : dictGet? d "key" = none) :
    buildMemoryItem d = .error (.keyError "key") := by
  simp [buildMemoryItem, getitem, h]

theorem buildMemoryItem_content_none (d : Dict) (k : PyValue)
    (hk : dictGet? d "key" = some k) (hc : dictGet? d "content" = none) :
    buildMemoryItem d = .error (.keyError "content") := by
  simp [buildMemoryItem, getitem, hk, hc]

theorem buildMemoryItem_ok (d : Dict) (k c : PyValue)
    (hk : dictGet? d "key" = some k) (hc : dictGet? d "content" = some c) :
    buildMemoryItem d = .ok
      { key := k, content := c,
        «namespace» := (dictGet? d "namespace").getD (.str "default"),
        metadata := (dictGet? d "metadata").getD (.dict []) } := by
  simp [buildMemoryItem, getitem, dictGetD, hk, hc]

theorem buildMemoryItem_ok_itemOfDict (d : Dict)
    (hk : (dictGet? d "key").isSome) (hc : (dictGet? d "content").isSome) :
    buildMemoryItem d = .ok (itemOfDict d) := by
  obtain ⟨k, hk'⟩ := Option.isSome_iff_exists.mp hk
  obtain ⟨c, hc'⟩ := Option.isSome_iff_exists.mp hc
  rw [buildMemoryItem_ok d k c hk' hc']
  simp [itemOfDict, dictGetD, hk', hc']

theorem buildMemoryItems_error_of_missing (items : List Dict)
    (h : ∃ d ∈ items, dictGet? d "key" = none ∨ dictGet? d "content" = none) :
    ∃ k, buildMemoryItems items = .error (.keyError k) := by
  induction items with
  | nil => simp at h
  | cons d ds ih =>
      cases hk : dictGet? d "key" with
      | none =>
          exact ⟨"key", by simp [buildMemoryItems, buildMemoryItem_key_none d hk]⟩
      | some k =>
          cases hc : dictGet? d "content" with
          | none =>
              exact ⟨"content",
                by simp [buildMemoryItems, buildMemoryItem_content_none d k hk hc]⟩
          | some c =>
              obtain ⟨e, he, hmiss⟩ := h
              rcases List.mem_cons.mp he with rfl | he'
              · rcases hmiss with hm | hm
                · rw [hk] at hm; exact absurd hm (by simp)
                · rw [hc] at hm; exact absurd hm (by simp)
              · obtain ⟨k', hk'⟩ := ih ⟨e, he', hmiss⟩
                exact ⟨k',
                  by simp [buildMemoryItems, buildMemoryItem_ok d k c hk hc, hk']⟩

theorem buildMemoryItems_ok_map (items : List Dict)
    (h : ∀ d ∈ items, (dictGet? d "key").isSome ∧ (dictGet? d "content").isSome) :
    buildMemoryItems items = .ok (items.map itemOfDict) := by
  induction items with
  | nil => rfl
  | cons d ds ih =>
      obtain ⟨hk, hc⟩ := h d (by simp)
      have hds := ih (fun e he => h e (by simp [he]))
      simp [buildMemoryItems, buildMemoryItem_ok_itemOfDict d hk hc, hds]

/-! ### Claim theorems -/

/-- C1: if some input dict lacks the `"key"` or `"content"` field, the
ingest tool surfaces a `KeyError` to the caller unrecovered, and the
list of requests sent to the client is empty — `client.ingest_memory`
is never invoked, so no network request is made. -/
theorem C1_ingest_missing_field_fails_before_network
    (client : AlphahumanConfig) (net : Network) (items : List Dict)
    (h : ∃ d ∈ items, dictGet? d "key" = none ∨ dictGet? d "content" = none) :
    (∃ k, (alphahuman_ingest_memory client net items).1 = .error (.keyError k)) ∧
    (alphahuman_ingest_memory client net items).2 = [] := by
  obtain ⟨k, hk⟩ := buildMemoryItems_error_of_missing items h
  exact ⟨⟨k, by simp [alphahuman_ingest_memory, hk]⟩,
         by simp [alphahuman_ingest_memory, hk]⟩

/-- Witness for C1 at a one-item list whose dict lacks `"key"`. -/
theorem C1_ingest_missing_field_fails_before_network_witness :
    (∃ k, (alphahuman_ingest_memory { token := "t", base_url := "u" } netZero
        [[("content", PyValue.str "c")]]).1 = .error (.keyError k)) ∧
    (alphahuman_ingest_memory { token := "t", base_url := "u" } netZero
        [[("content", PyValue.str "c")]]).2 = [] :=
  C1_ingest_missing_field_fails_before_network _ _ _
    ⟨[("content", PyValue.str "c")], by simp, Or.inl rfl⟩

/-- C2: an input dict with `"key"` and `"content"` yields a `MemoryItem`
whose namespace and metadata are the dict's values when present and the
defaults `"default"` and `{}` when absent. -/
theorem C2_ingest_defaults (d : Dict) (k c : PyValue)
    (hk : dictGet? d "key" = some k) (hc : dictGet? d "content" = some c) :
    buildMemoryItem d = .ok
      { key := k, content := c,
        «namespace» := (dictGet? d "namespace").getD (.str "default"),
        metadata := (dictGet? d "metadata").getD (.dict []) } ∧
    (dictGet? d "namespace" = none → dictGet? d "metadata" = none →
      buildMemoryItem d = .ok
        { key := k, content := c, «namespace» := .str "default", metadata := .dict [] }) ∧
    (∀ ns md, dictGet? d "namespace" = some ns → dictGet? d "metadata" = some md →
      buildMemoryItem d = .ok
        { key := k, content := c, «namespace» := ns, metadata := md }) := by
  refine ⟨buildMemoryItem_ok d k c hk hc, ?_, ?_⟩
  · intro hns hmd
    rw [buildMemoryItem_ok d k c hk hc, hns, hmd]
    rfl
  · intro ns md hns hmd
    rw [buildMemoryItem_ok d k c hk hc, hns, hmd]
    rfl

/-- Witness for C2 at a dict holding only the two required fields. -/
theorem C2_ingest_defaults_witness :
    buildMemoryItem [("key", PyValue.str "k"), ("content", PyValue.str "c")] = .ok
      { key := .str "k", content := .str "c",
        «namespace» := (dictGet? [("key", PyValue.str "k"), ("content", PyValue.str "c")]
          "namespace").getD (.str "default"),
        metadata := (dictGet? [("key", PyValue.str "k"), ("content", PyValue.str "c")]
          "metadata").getD (.dict []) } ∧
    buildMemoryItem [("key", PyValue.str "k"), ("content", PyValue.str "c")] = .ok
      { key := .str "k", content := .str "c",
        «namespace» := .str "default", metadata := .dict [] } :=
  ⟨(C2_ingest_defaults [("key", PyValue.str "k"), ("content", PyValue.str "c")]
      (PyValue.str "k") (PyValue.str "c") rfl rfl).1,
   (C2_ingest_defaults [("key", PyValue.str "k"), ("content", PyValue.str "c")]
      (PyValue.str "k") (PyValue.str "c") rfl rfl).2.1 rfl rfl⟩

/-- C3: `get_tools` fails with a `ValueError` naming `ALPHAHUMAN_API_KEY`
when that environment variable is unset, and with a non-empty value it
succeeds, delegating to `make_memory_tools` with that token. -/
theorem C3_get_tools_env_key (env : Env) :
    (envGet? env _TOKEN_ENV = none →
      get_tools env = .error (.valueError get_tools_err_msg) ∧
      ∃ pre post, get_tools_err_msg = pre ++ _TOKEN_ENV ++ post) ∧
    (∀ t, envGet? env _TOKEN_ENV = some t → t ≠ "" →
      get_tools env = .ok (make_memory_tools env t (get_tools_base_url env))) := by
  constructor
  · intro h
    exact ⟨by simp [get_tools, h],
      "Set the ", " environment variable or use make_memory_tools(token=...)", rfl⟩
  · intro t ht hne
    simp [get_tools, ht, hne]

/-- Witness for C3: the empty environment, and one holding a token. -/
theorem C3_get_tools_env_key_witness :
    (get_tools [] = .error (.valueError get_tools_err_msg) ∧
      ∃ pre post, get_tools_err_msg = pre ++ _TOKEN_ENV ++ post) ∧
    get_tools [(_TOKEN_ENV, "tok")] =
      .ok (make_memory_tools [(_TOKEN_ENV, "tok")] "tok"
        (get_tools_base_url [(_TOKEN_ENV, "tok")])) :=
  ⟨(C3_get_tools_env_key []).1 rfl,
   (C3_get_tools_env_key [(_TOKEN_ENV, "tok")]).2 "tok" rfl (by decide)⟩

/-- C4: the read tool invoked with no filters forwards a request whose
`key`, `keys` and `namespace` fields are all `None`, and returns exactly
the client's response translated to a dict. -/
theorem C4_read_no_filters_forwards_none (client : AlphahumanConfig) (net : Network) :
    alphahuman_read_memory client net none none none =
      ([("items", .list ((net.read client
            { key := none, keys := none, «namespace» := none }).items.map
            (fun item => .dict (storedItemToDict item)))),
        ("count", .int (net.read client
            { key := none, keys := none, «namespace» := none }).count)],
       [{ key := none, keys := none, «namespace» := none }]) := rfl

/-- C5: the delete tool forwards `key`, `keys`, `namespace` and
`delete_all` exactly as given with no validation of the combination, in
particular `delete_all := true` with all filters absent, and returns
`{"deleted": count}` from the client's response. -/
theorem C5_delete_forwards_as_given (client : AlphahumanConfig) (net : Network)
    (key : Option String) (keys : Option (List String)) (ns : Option String)
    (delete_all : Bool) :
    alphahuman_delete_memory client net key keys ns delete_all =
      ([("deleted", (net.delete client
          { key := key, keys := keys, «namespace» := ns, delete_all := delete_all }).deleted)],
       [{ key := key, keys := keys, «namespace» := ns, delete_all := delete_all }]) ∧
    alphahuman_delete_memory client net none none none true =
      ([("deleted", (net.delete client
          { key := none, keys := none, «namespace» := none, delete_all := true }).deleted)],
       [{ key := none, keys := none, «namespace» := none, delete_all := true }]) :=
  ⟨rfl, rfl⟩

/-- C6: the three tools returned by the factory declare exactly the
parameters `items`; `key`/`keys`/`namespace`; and
`key`/`keys`/`namespace`/`delete_all` — neither the token nor the base
URL appears in any parameter list; the credentials are captured only in
the single client instance the tools close over. -/
theorem C6_credential_isolation (env : Env) (token : String) (base_url : Option String) :
    (make_memory_tools env token base_url).ingest_tool_params = ["items"] ∧
    (make_memory_tools env token base_url).read_tool_params =
      ["key", "keys", "namespace"] ∧
    (make_memory_tools env token base_url).delete_tool_params =
      ["key", "keys", "namespace", "delete_all"] ∧
    "token" ∉ (make_memory_tools env token base_url).ingest_tool_params ∧
    "token" ∉ (make_memory_tools env token base_url).read_tool_params ∧
    "token" ∉ (make_memory_tools env token base_url).delete_tool_params ∧
    "base_url" ∉ (make_memory_tools env token base_url).ingest_tool_params ∧
    "base_url" ∉ (make_memory_tools env token base_url).read_tool_params ∧
    "base_url" ∉ (make_memory_tools env token base_url).delete_tool_params ∧
    (make_memory_tools env token base_url).client =
      { token := token, base_url := resolved_base_url env base_url } := by
  refine ⟨rfl, rfl, rfl, ?_, ?_, ?_, ?_, ?_, ?_, rfl⟩ <;> simp [make_memory_tools]

/-- C7: when every input dict has both required fields, the ingest tool
sends the constructed items in one batch request and returns exactly the
three counts from the client's response. -/
theorem C7_ingest_batch_counts (client : AlphahumanConfig) (net : Network)
    (items : List Dict)
    (h : ∀ d ∈ items, (dictGet? d "key").isSome ∧ (dictGet? d "content").isSome) :
    alphahuman_ingest_memory client net items =
      (.ok [("ingested", .int (net.ingest client
              { items := items.map itemOfDict }).ingested),
            ("updated", .int (net.ingest client
              { items := items.map itemOfDict }).updated),
            ("errors", .int (net.ingest client
              { items := items.map itemOfDict }).errors)],
       [{ items := items.map itemOfDict }]) := by
  simp [alphahuman_ingest_memory, buildMemoryItems_ok_map items h]

/-- Witness for C7 at a one-item list with both required fields. -/
theorem C7_ingest_batch_counts_witness :
    alphahuman_ingest_memory { token := "t", base_url := "u" } netZero
        [[("key", PyValue.str "a"), ("content", PyValue.str "b")]] =
      (.ok [("ingested", .int (netZero.ingest { token := "t", base_url := "u" }
              { items := ([[("key", PyValue.str "a"), ("content", PyValue.str "b")]].map
                itemOfDict) }).ingested),
            ("updated", .int (netZero.ingest { token := "t", base_url := "u" }
              { items := ([[("key", PyValue.str "a"), ("content", PyValue.str "b")]].map
                itemOfDict) }).updated),
            ("errors", .int (netZero.ingest { token := "t", base_url := "u" }
              { items := ([[("key", PyValue.str "a"), ("content", PyValue.str "b")]].map
                itemOfDict) }).errors)],
       [{ items := ([[("key", PyValue.str "a"), ("content", PyValue.str "b")]].map
            itemOfDict) }]) :=
  C7_ingest_batch_counts _ _ _ (by
    intro d hd
    simp only [List.mem_singleton] at hd
    subst hd
    exact ⟨rfl, rfl⟩)

/-- C8: the base URL is the explicit non-empty argument, else the
non-empty `ALPHAHUMAN_BASE_URL` value, else `DEFAULT_BASE_URL`; the
token reaches the client only as an explicit argument of the factory,
which `get_tools` calls with the environment's API key. -/
theorem C8_base_url_precedence :
    (∀ env s, s ≠ "" → resolved_base_url env (some s) = s) ∧
    (∀ env b u, (b = none ∨ b = some "") →
      envGet? env _BASE_URL_ENV = some u → u ≠ "" →
      resolved_base_url env b = u) ∧
    (∀ env b, (b = none ∨ b = some "") →
      (envGet? env _BASE_URL_ENV = none ∨ envGet? env _BASE_URL_ENV = some "") →
      resolved_base_url env b = DEFAULT_BASE_URL) ∧
    (∀ env token b, (make_memory_tools env token b).client.token = token ∧
      (make_memory_tools env token b).client.base_url = resolved_base_url env b) ∧
    (∀ env t, envGet? env _TOKEN_ENV = some t → t ≠ "" →
      get_tools env = .ok (make_memory_tools env t (get_tools_base_url env))) := by
  refine ⟨?_, ?_, ?_, ?_, ?_⟩
  · intro env s hs
    simp [resolved_base_url, hs]
  · intro env b u hb hu hne
    rcases hb with rfl | rfl <;> simp [resolved_base_url, hu, hne]
  · intro env b hb henv
    rcases hb with rfl | rfl <;> rcases henv with h | h <;> simp [resolved_base_url, h]
  · intro env token b
    exact ⟨rfl, rfl⟩
  · intro env t ht hne
    simp [get_tools, ht, hne]

/-- Witness for C8: each precedence case at a concrete environment. -/
theorem C8_base_url_precedence_witness :
    resolved_base_url [] (some "https://x.example") = "https://x.example" ∧
    resolved_base_url [(_BASE_URL_ENV, "https://y.example")] none = "https://y.example" ∧
    resolved_base_url [] none = DEFAULT_BASE_URL ∧
    get_tools [(_TOKEN_ENV, "tok")] =
      .ok (make_memory_tools [(_TOKEN_ENV, "tok")] "tok"
        (get_tools_base_url [(_TOKEN_ENV, "tok")])) :=
  ⟨C8_base_url_precedence.1 [] "https://x.example" (by decide),
   C8_base_url_precedence.2.1 [(_BASE_URL_ENV, "https://y.example")] none
     "https://y.example" (Or.inl rfl) rfl (by decide),
   C8_base_url_precedence.2.2.1 [] none (Or.inl rfl) (Or.inl rfl),
   C8_base_url_precedence.2.2.2.2 [(_TOKEN_ENV, "tok")] "tok" rfl (by decide)⟩

/-- C9: `get_tools` rejects an `ALPHAHUMAN_API_KEY` set to the empty
string with the same `ValueError` as an unset variable, while
`make_memory_tools` itself validates nothing and accepts any token,
including the empty string, without error. -/
theorem C9_empty_token_handling (env : Env) (token : String) (base_url : Option String) :
    (envGet? env _TOKEN_ENV = some "" →
      get_tools env = .error (.valueError get_tools_err_msg)) ∧
    (envGet? env _TOKEN_ENV = none →
      get_tools env = .error (.valueError get_tools_err_msg)) ∧
    make_memory_tools env token base_url =
      { client := { token := token, base_url := resolved_base_url env base_url },
        ingest_tool_params := ["items"],
        read_tool_params := ["key", "keys", "namespace"],
        delete_tool_params := ["key", "keys", "namespace", "delete_all"] } := by
  refine ⟨?_, ?_, rfl⟩ <;> intro h <;> simp [get_tools, h]

/-- Witness for C9: the environment mapping the key to `""`, and the
factory applied to the empty token. -/
theorem C9_empty_token_handling_witness :
    get_tools [(_TOKEN_ENV, "")] = .error (.valueError get_tools_err_msg) ∧
    make_memory_tools [(_TOKEN_ENV, "")] "" none =
      { client := { token := "", base_url := resolved_base_url [(_TOKEN_ENV, "")] none },
        ingest_tool_params := ["items"],
        read_tool_params := ["key", "keys", "namespace"],
        delete_tool_params := ["key", "keys", "namespace", "delete_all"] } :=
  ⟨(C9_empty_token_handling [(_TOKEN_ENV, "")] "" none).1 rfl,
   (C9_empty_token_handling [(_TOKEN_ENV, "")] "" none).2.2⟩

/-- C10: on valid input the ingest tool builds exactly one `MemoryItem`
per input dict, preserving length and order, and two dicts agreeing on
`"key"`, `"content"`, `"namespace"` and `"metadata"` build the same
item — any other fields are silently ignored. -/
theorem C10_item_per_dict (items : List Dict)
    (h : ∀ d ∈ items, (dictGet? d "key").isSome ∧ (dictGet? d "content").isSome) :
    (buildMemoryItems items = .ok (items.map itemOfDict) ∧
      (items.map itemOfDict).length = items.length) ∧
    (∀ d d' : Dict,
      dictGet? d "key" = dictGet? d' "key" →
      dictGet? d "content" = dictGet? d' "content" →
      dictGet? d "namespace" = dictGet? d' "namespace" →
      dictGet? d "metadata" = dictGet? d' "metadata" →
      buildMemoryItem d = buildMemoryItem d') := by
  refine ⟨⟨buildMemoryItems_ok_map items h, by simp⟩, ?_⟩
  intro d d' h1 h2 h3 h4
  simp [buildMemoryItem, getitem, dictGetD, h1, h2, h3, h4]

/-- Witness for C10 at a one-item list whose dict carries an extra
field. -/
theorem C10_item_per_dict_witness :
    buildMemoryItems [[("key", PyValue.str "a"), ("content", PyValue.str "b"),
        ("extra", PyValue.int 1)]] =
      .ok ([[("key", PyValue.str "a"), ("content", PyValue.str "b"),
        ("extra", PyValue.int 1)]].map itemOfDict) ∧
    buildMemoryItem [("key", PyValue.str "a"), ("content", PyValue.str "b"),
        ("extra", PyValue.int 1)] =
      buildMemoryItem [("key", PyValue.str "a"), ("content", PyValue.str "b")] :=
  ⟨(C10_item_per_dict _ (by
      intro d hd
      simp only [List.mem_singleton] at hd
      subst hd
      exact ⟨rfl, rfl⟩)).1.1,
   (C10_item_per_dict [] (by intro d hd; simp at hd)).2 _ _ rfl rfl rfl rfl⟩

end AlphahumanLanggraph
